import Mathlib

/-!
Verification of the Game model of the twist-tac-toe repository
(src/gameObjects/models/game.js), a configurable tic-tac-toe rules engine.

The Game class is embedded shallowly: the mutable object becomes a `Game`
structure and every method becomes a pure function returning the updated
structure (together with its boolean result where the method returns one).
The collaborators Board, Player and the line detector live in files that
are not part of the sources here, so they are modelled from the spec, as
marked on each definition.

JavaScript specifics kept by the embedding:
- scores are JS numbers receiving only additions of 1 and 0.5, modelled
  exactly as rationals;
- the `winner` field is dynamically typed: the constructor and the draw
  branch store a `Role` while the win branch stores the current Player
  object, so the field is modelled as a sum (`WinnerVal`);
- `currentPlayer` and `firstTurnPlayer` alias `player1`/`player2`; the
  aliasing is modelled by storing a `PlayerId` discriminant resolved
  against the two owned players;
- the numPieces setter reads the identifier `game`, which is unbound in
  the module, so that path is modelled as a thrown error via `Except`.
-/

/-- Role enum of src/gameObjects/enums/role.js. Modelled from the spec:
identity tag for a mark, NONE, P1 or P2. -/
inductive Role where
  | NONE
  | P1
  | P2
deriving DecidableEq, Repr

/-- GameState enum of src/gameObjects/enums/gameState.js. Modelled from the
spec: READY, PREPARING, ONGOING, FINISHED. -/
inductive GameState where
  | READY
  | PREPARING
  | ONGOING
  | FINISHED
deriving DecidableEq, Repr

/-- GameProp enum of src/gameObjects/enums/gameProp.js. Modelled from the
spec: the five property selectors; `OTHER` stands for any string that is
none of the five, hitting the default branch of the dispatch switch. -/
inductive GameProp where
  | SIZE
  | WIN_LENGTH
  | IS_LIMITED_PIECES
  | NUM_PIECES
  | IS_FIFO_ORDER
  | OTHER
deriving DecidableEq, Repr

/-- Discriminant for the two owned Player instances; `currentPlayer`,
`firstTurnPlayer` and the win-branch `winner` assignment are references to
one of the two fixed players, modelled by this tag. -/
inductive PlayerId where
  | p1
  | p2
deriving DecidableEq, Repr

/-- Value stored in the dynamically typed `winner` field of game.js: the
constructor, the draw branch and `readyGame` store a `Role`, while the win
branch of `updateGameStateByLastMove` stores the current Player object
(a reference to player1 or player2). -/
inductive WinnerVal where
  | role (r : Role)
  | playerRef (p : PlayerId)
deriving DecidableEq, Repr

/-- Modelled from the spec: the Board collaborator
(src/gameObjects/models/board.js) owns the grid. The grid is kept as the
two dimensions plus the list of placed marks with their coordinates. -/
structure Board where
  sizeX : Nat
  sizeY : Nat
  placed : List (Nat × Nat × Role)
deriving DecidableEq, Repr

/-- Modelled from the spec: reading a cell of the grid; a coordinate with
no placed mark holds NONE. -/
def Board.cellAt (b : Board) (x y : Nat) : Role :=
  match b.placed.find? (fun e => e.1 == x && e.2.1 == y) with
  | some e => e.2.2
  | none => Role.NONE

/-- Modelled from the spec: placeMark places a mark at a coordinate if and
only if the cell is empty and in-bounds, reporting success; on failure the
board is unchanged. Success is modelled by returning the updated board. -/
def Board.placeMark (b : Board) (x y : Nat) (r : Role) : Option Board :=
  if x < b.sizeX ∧ y < b.sizeY ∧ b.cellAt x y = Role.NONE then
    some { b with placed := b.placed ++ [(x, y, r)] }
  else
    none

/-- Modelled from the spec: reports whether any empty in-bounds cell
remains on the board. -/
def Board.hasPlayableSquares (b : Board) : Bool :=
  (List.range b.sizeX).any fun x =>
    (List.range b.sizeY).any fun y => decide (b.cellAt x y = Role.NONE)

/-- Modelled from the spec: clears all cells of the grid. -/
def Board.resetBoard (b : Board) : Board :=
  { b with placed := [] }

/-- Modelled from the spec: resizes the grid to the given dimensions. -/
def Board.updateSize (b : Board) (x y : Nat) : Board :=
  { b with sizeX := x, sizeY := y }

/-- Cells of a sliding window of the given length starting at an integer
coordinate and advancing along a direction. -/
def windowCells (sx sy dx dy : Int) (len : Nat) : List (Int × Int) :=
  (List.range len).map fun i => (sx + i * dx, sy + i * dy)

/-- Whether an integer coordinate is in-bounds on the board and its cell
is owned by the given role. -/
def Board.cellOwned (b : Board) (r : Role) (c : Int × Int) : Bool :=
  decide (0 ≤ c.1) && decide (c.1 < (b.sizeX : Int)) &&
  decide (0 ≤ c.2) && decide (c.2 < (b.sizeY : Int)) &&
  decide (b.cellAt c.1.toNat c.2.toNat = r)

/-- Modelled from the spec: the line detector
(src/gameObjects/utils/winnerCheck.js, winnerCheckingSlidingWindow). Given
the board cells, a role, the last-placed coordinate and the required line
length, it returns the coordinates of a contiguous run of cells of that
length, all owned by the role, through the given coordinate, along one of
the four directions (horizontal, vertical, the two diagonals), or signals
no win. Windows slide so that the given coordinate occupies each offset. -/
def winnerCheckingSlidingWindow (b : Board) (r : Role) (x y : Nat)
    (winLength : Nat) : Option (List (Nat × Nat)) :=
  ([((1 : Int), (0 : Int)), (0, 1), (1, 1), (1, -1)]).findSome? fun d =>
    (List.range winLength).findSome? fun k =>
      let sx : Int := (x : Int) - k * d.1
      let sy : Int := (y : Int) - k * d.2
      let cs := windowCells sx sy d.1 d.2 winLength
      if cs.all (b.cellOwned r) then
        some (cs.map fun c => (c.1.toNat, c.2.toNat))
      else
        none

/-- Modelled from the spec: the Player collaborator
(src/gameObjects/models/player.js) holds identity, role, score and move
history. Scores receive additions of 1 and 0.5 and are kept as exact
rationals. -/
structure Player where
  name : String
  mark : String
  role : Role
  score : Rat
  moveHistory : List (Nat × Nat)
deriving DecidableEq, Repr

/-- Modelled from the spec: records a move in the move history. -/
def Player.updatePlayerMove (p : Player) (x y : Nat) : Player :=
  { p with moveHistory := p.moveHistory ++ [(x, y)] }

/-- Modelled from the spec: clears the move history. -/
def Player.resetPlayerMoveHistory (p : Player) : Player :=
  { p with moveHistory := [] }

/-- Modelled from the spec: accumulates score. -/
def Player.addScore (p : Player) (amt : Rat) : Player :=
  { p with score := p.score + amt }

/-- Modelled from the spec: resets the score to zero. -/
def Player.resetScore (p : Player) : Player :=
  { p with score := 0 }

/-- The Game aggregate of game.js: every instance field of the class. -/
structure Game where
  winLength : Nat
  isLimitedPieces : Bool
  numPieces : Nat
  isFifoOrder : Bool
  board : Board
  player1 : Player
  player2 : Player
  currentPlayer : PlayerId
  winner : WinnerVal
  winCells : List (Nat × Nat)
  firstTurnPlayer : PlayerId
  totalGamesPlayed : Nat
  state : GameState
deriving DecidableEq, Repr

/-- Resolves a player reference against the two owned Player instances. -/
def Game.playerOf (g : Game) : PlayerId → Player
  | PlayerId.p1 => g.player1
  | PlayerId.p2 => g.player2

/-- Writes back through a player reference, mutating the owned instance
the reference aliases. -/
def Game.setPlayerOf (g : Game) : PlayerId → Player → Game
  | PlayerId.p1, p => { g with player1 := p }
  | PlayerId.p2, p => { g with player2 := p }

/-- The other of the two player references. -/
def otherId : PlayerId → PlayerId
  | PlayerId.p1 => PlayerId.p2
  | PlayerId.p2 => PlayerId.p1

/-- Role of the player the current-player reference aliases. -/
def Game.currentRole (g : Game) : Role :=
  (g.playerOf g.currentPlayer).role

/-- The Game constructor of game.js lines 27 to 50. The default argument
values come from data/GameConfig.js, which is outside the sources; the
constructor is therefore modelled with explicit arguments. -/
def mkGame (boardSizeX boardSizeY winLength numPieces : Nat)
    (isFifoOrder : Bool) : Game :=
  { winLength := winLength
    isLimitedPieces := false
    numPieces := numPieces
    isFifoOrder := isFifoOrder
    board := { sizeX := boardSizeX, sizeY := boardSizeY, placed := [] }
    player1 :=
      { name := "Player 1", mark := "X", role := Role.P1, score := 0,
        moveHistory := [] }
    player2 :=
      { name := "Player 2", mark := "O", role := Role.P2, score := 0,
        moveHistory := [] }
    currentPlayer := PlayerId.p1
    winner := WinnerVal.role Role.NONE
    winCells := []
    firstTurnPlayer := PlayerId.p1
    totalGamesPlayed := 0
    state := GameState.READY }

/-- Argument bag passed to updateGameConfig; the dispatch reads only the
key its branch needs. -/
structure ConfigArg where
  x : Nat
  y : Nat
  len : Nat
  num : Nat
  isLimited : Bool
  isFifo : Bool
deriving DecidableEq, Repr

/-- The size setter of Game.updateProp (game.js lines 102 to 110): resize
the board, then clamp winLength to the smaller dimension when either new
dimension is below it; always returns true. -/
def Game.updateProp_size (g : Game) (x y : Nat) : Bool × Game :=
  let g1 := { g with board := g.board.updateSize x y }
  if x < g.winLength ∨ y < g.winLength then
    (true, { g1 with winLength := if x < y then x else y })
  else
    (true, g1)

/-- The winLength setter of Game.updateProp (game.js lines 115 to 122):
applies len only when at least one board dimension is at least len. -/
def Game.updateProp_winLength (g : Game) (len : Nat) : Bool × Game :=
  if g.board.sizeX ≥ len ∨ g.board.sizeY ≥ len then
    (true, { g with winLength := len })
  else
    (false, g)

/-- The isLimitedPieces setter of Game.updateProp (game.js lines 128 to
131): always sets the flag. -/
def Game.updateProp_isLimitedPieces (g : Game) (isLimited : Bool) :
    Bool × Game :=
  (true, { g with isLimitedPieces := isLimited })

/-- Game.updateNumPiecesEachPlayer (game.js lines 161 to 165). -/
def Game.updateNumPiecesEachPlayer (g : Game) (num : Nat) : Game :=
  if g.state ≠ GameState.ONGOING then { g with numPieces := num } else g

/-- The numPieces setter of Game.updateProp (game.js lines 137 to 144).
When the cell count admits num, line 140 reads the identifier `game`,
which is bound nowhere in the module (the method belongs to the class, so
the receiver should have been `this`); in a strict-mode ES module the
lookup throws a ReferenceError, modelled as `Except.error ()`. The
numPieces field is never written. -/
def Game.updateProp_numPieces (g : Game) (num : Nat) :
    Except Unit (Bool × Game) :=
  if g.board.sizeX * g.board.sizeY ≥ num then
    Except.error ()
  else
    Except.ok (false, g)

/-- The isFifoOrder setter of Game.updateProp (game.js lines 150 to 153):
always sets the flag. -/
def Game.updateProp_isFifoOrder (g : Game) (isFifo : Bool) : Bool × Game :=
  (true, { g with isFifoOrder := isFifo })

/-- Game.updateGameConfig (game.js lines 57 to 78): when the guard allows
configuration (state is not ONGOING and no game of the match is complete),
dispatch on the property selector; otherwise, and on an unrecognized
selector, return false with no mutation. The `Except` layer carries the
error the numPieces path can throw. -/
def Game.updateGameConfig (g : Game) (prop : GameProp) (arg : ConfigArg) :
    Except Unit (Bool × Game) :=
  if g.state ≠ GameState.ONGOING ∧ g.totalGamesPlayed ≤ 0 then
    match prop with
    | GameProp.SIZE => Except.ok (g.updateProp_size arg.x arg.y)
    | GameProp.WIN_LENGTH => Except.ok (g.updateProp_winLength arg.len)
    | GameProp.IS_LIMITED_PIECES =>
        Except.ok (g.updateProp_isLimitedPieces arg.isLimited)
    | GameProp.NUM_PIECES => g.updateProp_numPieces arg.num
    | GameProp.IS_FIFO_ORDER =>
        Except.ok (g.updateProp_isFifoOrder arg.isFifo)
    | GameProp.OTHER => Except.ok (false, g)
  else
    Except.ok (false, g)

/-- Game.readyGame (game.js lines 169 to 178): enter PREPARING, clear the
board, point currentPlayer at firstTurnPlayer, clear that player's move
history, clear winner and winCells, then enter READY. -/
def Game.readyGame (g : Game) : Game :=
  let g1 := { g with
    state := GameState.PREPARING
    board := g.board.resetBoard
    currentPlayer := g.firstTurnPlayer }
  let g2 := g1.setPlayerOf g1.currentPlayer
    ((g1.playerOf g1.currentPlayer).resetPlayerMoveHistory)
  { g2 with
    winner := WinnerVal.role Role.NONE
    winCells := []
    state := GameState.READY }

/-- Game.resetMatch (game.js lines 182 to 189). -/
def Game.resetMatch (g : Game) (firstTurnPlayer : PlayerId) : Game :=
  Game.readyGame { g with
    player1 := g.player1.resetScore
    player2 := g.player2.resetScore
    firstTurnPlayer := firstTurnPlayer
    totalGamesPlayed := 0 }

/-- Game.startGame (game.js lines 193 to 195). -/
def Game.startGame (g : Game) : Game :=
  { g with state := GameState.ONGOING }

/-- Game.swapFirstTurn (game.js lines 288 to 290). -/
def Game.swapFirstTurn (g : Game) : Game :=
  { g with firstTurnPlayer :=
      if g.firstTurnPlayer = PlayerId.p1 then PlayerId.p2 else PlayerId.p1 }

/-- Game.nextGame (game.js lines 199 to 202). -/
def Game.nextGame (g : Game) : Game :=
  Game.readyGame g.swapFirstTurn

/-- Game.swapTurns (game.js lines 281 to 283). -/
def Game.swapTurns (g : Game) : Game :=
  { g with currentPlayer :=
      if g.currentPlayer = PlayerId.p1 then PlayerId.p2 else PlayerId.p1 }

/-- Game.checkWinner (game.js lines 242 to 244): delegate to the line
detector with the board cells, the current player's role and winLength. -/
def Game.checkWinner (g : Game) (x y : Nat) : Option (List (Nat × Nat)) :=
  winnerCheckingSlidingWindow g.board g.currentRole x y g.winLength

/-- Game.checkValidMoves (game.js lines 250 to 252). -/
def Game.checkValidMoves (g : Game) : Bool :=
  g.board.hasPlayableSquares

/-- Score accumulation through an aliased player reference. -/
def Game.addScoreTo (g : Game) (pid : PlayerId) (amt : Rat) : Game :=
  g.setPlayerOf pid ((g.playerOf pid).addScore amt)

/-- Game.updateGameStateByLastMove (game.js lines 210 to 233): if the
detector finds a line through the last move, the win branch stores the
current Player object in `winner`, stores the line, awards 1 point,
counts the game and finishes; else if playable squares remain, swap turns
and continue; else the draw branch stores Role.NONE in `winner`, awards
both players half a point, counts the game and finishes. -/
def Game.updateGameStateByLastMove (g : Game) (posX posY : Nat) : Game :=
  match g.checkWinner posX posY with
  | some winCells =>
      let g1 := { g with
        winner := WinnerVal.playerRef g.currentPlayer
        winCells := winCells }
      let g2 := g1.addScoreTo g1.currentPlayer 1
      { g2 with
        totalGamesPlayed := g2.totalGamesPlayed + 1
        state := GameState.FINISHED }
  | none =>
      if g.checkValidMoves then
        { g.swapTurns with state := GameState.ONGOING }
      else
        let g1 := { g with winner := WinnerVal.role Role.NONE }
        let g2 := (g1.addScoreTo PlayerId.p1 (1/2)).addScoreTo PlayerId.p2
          (1/2)
        { g2 with
          totalGamesPlayed := g2.totalGamesPlayed + 1
          state := GameState.FINISHED }

/-- Helper recording the current player's move after a successful
placement, mirroring line 265 of game.js. -/
def Game.recordCurrentMove (g : Game) (x y : Nat) : Game :=
  g.setPlayerOf g.currentPlayer
    ((g.playerOf g.currentPlayer).updatePlayerMove x y)

/-- Game.playerMakeMove (game.js lines 259 to 276): only proceeds while
ONGOING; attempts the placement through the board; on success records the
move in the current player's history and returns true. -/
def Game.playerMakeMove (g : Game) (x y : Nat) : Bool × Game :=
  if g.state ≠ GameState.ONGOING then
    (false, g)
  else
    match g.board.placeMark x y g.currentRole with
    | some b => (true, Game.recordCurrentMove { g with board := b } x y)
    | none => (false, g)

/-!
Helper lemmas shared by the claim theorems.
-/

lemma playerOf_setPlayerOf_same (g : Game) (pid : PlayerId) (p : Player) :
    (g.setPlayerOf pid p).playerOf pid = p := by
  cases pid <;> rfl

lemma playerOf_setPlayerOf_other (g : Game) (pid : PlayerId) (p : Player) :
    (g.setPlayerOf pid p).playerOf (otherId pid) = g.playerOf (otherId pid) := by
  cases pid <;> rfl

lemma ternary_min (x y : Nat) : (if x < y then x else y) = min x y := by
  rw [Nat.min_def]
  split <;> split <;> omega

lemma Board.placeMark_sizes {b b' : Board} {x y : Nat} {r : Role}
    (h : b.placeMark x y r = some b') :
    b'.sizeX = b.sizeX ∧ b'.sizeY = b.sizeY := by
  unfold Board.placeMark at h
  split at h
  · injection h with h2
    rw [← h2]
    exact ⟨rfl, rfl⟩
  · cases h

/-- The invariant of the amended claim C4: the winning-line length never
exceeds the larger of the two board dimensions. -/
abbrev wlMaxInv (g : Game) : Prop :=
  g.winLength ≤ max g.board.sizeX g.board.sizeY

/-- C1: whenever state is ONGOING or totalGamesPlayed is positive, every
updateGameConfig call returns false and changes no field of the Game; an
unrecognized property selector likewise returns false with no mutation
even when the guard passes. -/
theorem updateGameConfig_noop_when_match_in_progress
    (g : Game) (prop : GameProp) (arg : ConfigArg) :
    ((g.state = GameState.ONGOING ∨ 0 < g.totalGamesPlayed) →
      g.updateGameConfig prop arg = Except.ok (false, g)) ∧
    g.updateGameConfig GameProp.OTHER arg = Except.ok (false, g) := by
  constructor
  · intro h
    have hc : ¬(g.state ≠ GameState.ONGOING ∧ g.totalGamesPlayed ≤ 0) := by
      rcases h with h | h
      · exact fun hc => hc.1 h
      · exact fun hc => by omega
    unfold Game.updateGameConfig
    rw [if_neg hc]
  · unfold Game.updateGameConfig
    split <;> rfl

def gW1 : Game := (mkGame 3 3 3 9 false).startGame

def argW1 : ConfigArg := ⟨4, 4, 0, 0, false, false⟩

theorem updateGameConfig_noop_when_match_in_progress_witness :
    gW1.updateGameConfig GameProp.SIZE argW1 = Except.ok (false, gW1) ∧
    gW1.updateGameConfig GameProp.OTHER argW1 = Except.ok (false, gW1) :=
  ⟨(updateGameConfig_noop_when_match_in_progress gW1 GameProp.SIZE argW1).1
      (Or.inl rfl),
    (updateGameConfig_noop_when_match_in_progress gW1 GameProp.OTHER argW1).2⟩

/-- C5: once the configuration guard passes, the WIN_LENGTH update
succeeds and sets winLength to len exactly when at least one board
dimension is at least len (inclusive-or), and otherwise returns false
leaving the game unchanged. -/
theorem updateGameConfig_winLength_iff (g : Game) (arg : ConfigArg)
    (h1 : g.state ≠ GameState.ONGOING) (h2 : g.totalGamesPlayed = 0) :
    (g.board.sizeX ≥ arg.len ∨ g.board.sizeY ≥ arg.len →
      g.updateGameConfig GameProp.WIN_LENGTH arg
        = Except.ok (true, { g with winLength := arg.len })) ∧
    (¬(g.board.sizeX ≥ arg.len ∨ g.board.sizeY ≥ arg.len) →
      g.updateGameConfig GameProp.WIN_LENGTH arg = Except.ok (false, g)) := by
  have hg : g.state ≠ GameState.ONGOING ∧ g.totalGamesPlayed ≤ 0 :=
    ⟨h1, by omega⟩
  constructor <;> intro hlen <;>
    · unfold Game.updateGameConfig
      rw [if_pos hg]
      unfold Game.updateProp_winLength
      simp [hlen]

def gW5 : Game := mkGame 4 4 3 16 false

def argW5 : ConfigArg := ⟨0, 0, 5, 0, false, false⟩

theorem updateGameConfig_winLength_iff_witness :
    gW5.updateGameConfig GameProp.WIN_LENGTH argW5 = Except.ok (false, gW5) :=
  (updateGameConfig_winLength_iff gW5 argW5 (by decide) rfl).2 (by decide)

/-- C6: once the configuration guard passes, the SIZE update always
returns true, resizes the board to the given dimensions, clamps winLength
down to the smaller dimension when either dimension is below it and keeps
it otherwise, so the updated winLength never exceeds the smaller new
dimension. -/
theorem updateGameConfig_size_spec (g : Game) (arg : ConfigArg)
    (h1 : g.state ≠ GameState.ONGOING) (h2 : g.totalGamesPlayed = 0) :
    ∀ b g', g.updateGameConfig GameProp.SIZE arg = Except.ok (b, g') →
      b = true ∧ g'.board.sizeX = arg.x ∧ g'.board.sizeY = arg.y ∧
      (arg.x < g.winLength ∨ arg.y < g.winLength →
        g'.winLength = min arg.x arg.y) ∧
      (g.winLength ≤ arg.x → g.winLength ≤ arg.y →
        g'.winLength = g.winLength) ∧
      g'.winLength ≤ min arg.x arg.y := by
  have hg : g.state ≠ GameState.ONGOING ∧ g.totalGamesPlayed ≤ 0 :=
    ⟨h1, by omega⟩
  intro b g' heq
  unfold Game.updateGameConfig at heq
  rw [if_pos hg] at heq
  injection heq with heq
  unfold Game.updateProp_size at heq
  split at heq
  case isTrue hlt =>
    injection heq with hb hgame
    subst hb
    subst hgame
    refine ⟨rfl, rfl, rfl, fun _ => ternary_min arg.x arg.y,
      fun hx hy => absurd hlt (by omega), ?_⟩
    show (if arg.x < arg.y then arg.x else arg.y) ≤ min arg.x arg.y
    rw [ternary_min]
  case isFalse hlt =>
    injection heq with hb hgame
    subst hb
    subst hgame
    refine ⟨rfl, rfl, rfl, fun h => absurd h hlt, fun _ _ => rfl, ?_⟩
    show g.winLength ≤ min arg.x arg.y
    omega

def gW6 : Game := mkGame 3 3 3 9 false

def argW6 : ConfigArg := ⟨2, 4, 0, 0, false, false⟩

def gW6after : Game :=
  match gW6.updateGameConfig GameProp.SIZE argW6 with
  | Except.ok p => p.2
  | Except.error _ => gW6

theorem updateGameConfig_size_spec_witness :
    gW6.updateGameConfig GameProp.SIZE argW6 = Except.ok (true, gW6after) ∧
    gW6after.winLength ≤ min argW6.x argW6.y :=
  ⟨rfl,
    ((updateGameConfig_size_spec gW6 argW6 (by decide) rfl) true gW6after
        rfl).2.2.2.2.2⟩

def gC7 : Game := mkGame 3 3 3 9 false

def argC7 : ConfigArg := ⟨0, 0, 0, 3, false, false⟩

/-- C7: evaluation of the code at a concrete failing input. On a fresh
3 by 3 game the guard passes and the cell count 9 admits num = 3, so the
claim expects the NUM_PIECES update to return true and set numPieces; the
code instead reaches line 140 of game.js, whose receiver is the unbound
identifier `game`, and throws, modelled by the error result. -/
theorem updateGameConfig_numPieces_throws :
    gC7.board.sizeX * gC7.board.sizeY ≥ 3 ∧
    gC7.state ≠ GameState.ONGOING ∧
    gC7.totalGamesPlayed = 0 ∧
    gC7.updateGameConfig GameProp.NUM_PIECES argC7 = Except.error () :=
  ⟨by decide, by decide, rfl, rfl⟩

lemma setPlayerOf_frame (g : Game) (pid : PlayerId) (p : Player) :
    (g.setPlayerOf pid p).winLength = g.winLength ∧
    (g.setPlayerOf pid p).board = g.board ∧
    (g.setPlayerOf pid p).currentPlayer = g.currentPlayer ∧
    (g.setPlayerOf pid p).state = g.state ∧
    (g.setPlayerOf pid p).totalGamesPlayed = g.totalGamesPlayed ∧
    (g.setPlayerOf pid p).winner = g.winner := by
  cases pid <;> exact ⟨rfl, rfl, rfl, rfl, rfl, rfl⟩

lemma readyGame_sizes (g : Game) :
    g.readyGame.winLength = g.winLength ∧
    g.readyGame.board.sizeX = g.board.sizeX ∧
    g.readyGame.board.sizeY = g.board.sizeY := by
  unfold Game.readyGame
  refine ⟨(setPlayerOf_frame _ _ _).1, ?_, ?_⟩ <;>
    · have hb := (setPlayerOf_frame { g with
        state := GameState.PREPARING
        board := g.board.resetBoard
        currentPlayer := g.firstTurnPlayer } g.firstTurnPlayer
        (({ g with
          state := GameState.PREPARING
          board := g.board.resetBoard
          currentPlayer := g.firstTurnPlayer }).playerOf
            g.firstTurnPlayer).resetPlayerMoveHistory).2.1
      rw [show (Game.setPlayerOf _ _ _).board = Board.resetBoard g.board from hb]
      rfl

lemma playerMakeMove_sizes (g : Game) (x y : Nat) :
    (g.playerMakeMove x y).2.winLength = g.winLength ∧
    (g.playerMakeMove x y).2.board.sizeX = g.board.sizeX ∧
    (g.playerMakeMove x y).2.board.sizeY = g.board.sizeY := by
  unfold Game.playerMakeMove
  split
  · exact ⟨rfl, rfl, rfl⟩
  · split
    case h_1 b hb =>
      have hs := Board.placeMark_sizes hb
      cases hc : g.currentPlayer <;>
        simp [Game.recordCurrentMove, Game.setPlayerOf, Game.playerOf, hc,
          hs.1, hs.2]
    · exact ⟨rfl, rfl, rfl⟩

lemma updateGameStateByLastMove_sizes (g : Game) (x y : Nat) :
    (g.updateGameStateByLastMove x y).winLength = g.winLength ∧
    (g.updateGameStateByLastMove x y).board = g.board := by
  unfold Game.updateGameStateByLastMove
  split
  case h_1 cs hcs =>
    constructor
    · exact (setPlayerOf_frame _ _ _).1
    · exact (setPlayerOf_frame _ _ _).2.1
  case h_2 hcs =>
    split
    · exact ⟨rfl, rfl⟩
    · constructor
      · exact ((setPlayerOf_frame _ _ _).1).trans (setPlayerOf_frame _ _ _).1
      · exact ((setPlayerOf_frame _ _ _).2.1).trans (setPlayerOf_frame _ _ _).2.1

def gC4a : Game := mkGame 3 3 3 9 false

def argC4size : ConfigArg := ⟨5, 3, 0, 0, false, false⟩

def argC4len : ConfigArg := ⟨0, 0, 4, 0, false, false⟩

def gC4b : Game :=
  match gC4a.updateGameConfig GameProp.SIZE argC4size with
  | Except.ok p => p.2
  | Except.error _ => gC4a

def gC4c : Game :=
  match gC4b.updateGameConfig GameProp.WIN_LENGTH argC4len with
  | Except.ok p => p.2
  | Except.error _ => gC4b

/-- C4 counterexample: starting from a freshly constructed game, a SIZE
update to 5 by 3 keeps the claimed invariant, but the subsequent
WIN_LENGTH update to 4 succeeds (4 fits the larger dimension) and leaves
winLength 4 above the smaller dimension 3, so a successful
updateGameConfig call does not preserve
winLength less-or-equal min of the dimensions. -/
theorem winLength_min_invariant_counterexample :
    gC4a.winLength ≤ min gC4a.board.sizeX gC4a.board.sizeY ∧
    gC4a.updateGameConfig GameProp.SIZE argC4size = Except.ok (true, gC4b) ∧
    gC4b.winLength ≤ min gC4b.board.sizeX gC4b.board.sizeY ∧
    gC4b.updateGameConfig GameProp.WIN_LENGTH argC4len
      = Except.ok (true, gC4c) ∧
    ¬ gC4c.winLength ≤ min gC4c.board.sizeX gC4c.board.sizeY :=
  ⟨by decide, rfl, by decide, rfl, by decide⟩

/-- C4 amended: what every operation does preserve is the bound by the
larger board dimension: if winLength is at most
max of sizeX and sizeY, it stays so across every public operation,
including every successful updateGameConfig call. -/
theorem winLength_max_invariant_preserved (g : Game) (h : wlMaxInv g) :
    (∀ prop arg b g', g.updateGameConfig prop arg = Except.ok (b, g') →
      wlMaxInv g') ∧
    (∀ x y, wlMaxInv (g.playerMakeMove x y).2) ∧
    (∀ x y, wlMaxInv (g.updateGameStateByLastMove x y)) ∧
    wlMaxInv g.readyGame ∧
    (∀ pid, wlMaxInv (g.resetMatch pid)) ∧
    wlMaxInv g.startGame ∧
    wlMaxInv g.nextGame ∧
    wlMaxInv g.swapTurns ∧
    wlMaxInv g.swapFirstTurn := by
  refine ⟨?_, ?_, ?_, ?_, ?_, h, ?_, h, h⟩
  · intro prop arg b g' heq
    unfold Game.updateGameConfig at heq
    split at heq
    case isFalse hg =>
      injection heq with heq
      injection heq with hb hg2
      rw [← hg2]
      exact h
    case isTrue hg =>
      cases prop
      case SIZE =>
        replace heq : Except.ok (g.updateProp_size arg.x arg.y)
            = Except.ok (b, g') := heq
        injection heq with heq
        unfold Game.updateProp_size at heq
        split at heq
        case isTrue hlt =>
          injection heq with hb hg2
          rw [← hg2]
          show (if arg.x < arg.y then arg.x else arg.y) ≤ max arg.x arg.y
          split <;> omega
        case isFalse hlt =>
          injection heq with hb hg2
          rw [← hg2]
          show g.winLength ≤ max arg.x arg.y
          omega
      case WIN_LENGTH =>
        replace heq : Except.ok (g.updateProp_winLength arg.len)
            = Except.ok (b, g') := heq
        injection heq with heq
        unfold Game.updateProp_winLength at heq
        split at heq
        case isTrue hlen =>
          injection heq with hb hg2
          rw [← hg2]
          show arg.len ≤ max g.board.sizeX g.board.sizeY
          omega
        case isFalse hlen =>
          injection heq with hb hg2
          rw [← hg2]
          exact h
      case IS_LIMITED_PIECES =>
        replace heq : Except.ok (g.updateProp_isLimitedPieces arg.isLimited)
            = Except.ok (b, g') := heq
        injection heq with heq
        injection heq with hb hg2
        rw [← hg2]
        exact h
      case NUM_PIECES =>
        replace heq : g.updateProp_numPieces arg.num
            = Except.ok (b, g') := heq
        unfold Game.updateProp_numPieces at heq
        split at heq
        · cases heq
        · injection heq with heq
          injection heq with hb hg2
          rw [← hg2]
          exact h
      case IS_FIFO_ORDER =>
        replace heq : Except.ok (g.updateProp_isFifoOrder arg.isFifo)
            = Except.ok (b, g') := heq
        injection heq with heq
        injection heq with hb hg2
        rw [← hg2]
        exact h
      case OTHER =>
        replace heq : Except.ok ((false : Bool), g) = Except.ok (b, g') := heq
        injection heq with heq
        injection heq with hb hg2
        rw [← hg2]
        exact h
  · intro x y
    have hs := playerMakeMove_sizes g x y
    unfold wlMaxInv
    rw [hs.1, hs.2.1, hs.2.2]
    exact h
  · intro x y
    have hs := updateGameStateByLastMove_sizes g x y
    unfold wlMaxInv
    rw [hs.1, hs.2]
    exact h
  · have hs := readyGame_sizes g
    unfold wlMaxInv
    rw [hs.1, hs.2.1, hs.2.2]
    exact h
  · intro pid
    unfold Game.resetMatch
    have hs := readyGame_sizes { g with
      player1 := g.player1.resetScore
      player2 := g.player2.resetScore
      firstTurnPlayer := pid
      totalGamesPlayed := 0 }
    unfold wlMaxInv
    rw [hs.1, hs.2.1, hs.2.2]
    exact h
  · unfold Game.nextGame
    have hs := readyGame_sizes g.swapFirstTurn
    unfold wlMaxInv
    rw [hs.1, hs.2.1, hs.2.2]
    exact h

def gW4 : Game := mkGame 3 3 3 9 false

theorem winLength_max_invariant_preserved_witness :
    wlMaxInv gW4 ∧ wlMaxInv gW4.readyGame :=
  ⟨by decide, (winLength_max_invariant_preserved gW4 (by decide)).2.2.2.1⟩

lemma swapTurns_otherId (g : Game) :
    g.swapTurns.currentPlayer = otherId g.currentPlayer := by
  cases hc : g.currentPlayer <;> simp [Game.swapTurns, otherId, hc]

/-- C3: when the detector finds no line, a board with an empty cell left
makes the move hand the turn to the other player with state ONGOING and
no change to totalGamesPlayed, winner or either score; a full board ends
the game as a draw: winner Role.NONE, half a point to each player,
totalGamesPlayed up by one and state FINISHED. -/
theorem updateGameStateByLastMove_no_win_spec (g : Game) (x y : Nat)
    (h : g.checkWinner x y = none) :
    (g.checkValidMoves = true →
      (g.updateGameStateByLastMove x y).currentPlayer
        = otherId g.currentPlayer ∧
      (g.updateGameStateByLastMove x y).state = GameState.ONGOING ∧
      (g.updateGameStateByLastMove x y).totalGamesPlayed
        = g.totalGamesPlayed ∧
      (g.updateGameStateByLastMove x y).winner = g.winner ∧
      (g.updateGameStateByLastMove x y).player1.score = g.player1.score ∧
      (g.updateGameStateByLastMove x y).player2.score = g.player2.score) ∧
    (g.checkValidMoves = false →
      (g.updateGameStateByLastMove x y).winner = WinnerVal.role Role.NONE ∧
      (g.updateGameStateByLastMove x y).player1.score
        = g.player1.score + 1/2 ∧
      (g.updateGameStateByLastMove x y).player2.score
        = g.player2.score + 1/2 ∧
      (g.updateGameStateByLastMove x y).totalGamesPlayed
        = g.totalGamesPlayed + 1 ∧
      (g.updateGameStateByLastMove x y).state = GameState.FINISHED) := by
  constructor <;> intro hv <;>
    · unfold Game.updateGameStateByLastMove
      rw [h]
      cases hc : g.currentPlayer <;>
        simp [hv, hc, Game.swapTurns, otherId, Game.addScoreTo,
          Game.setPlayerOf, Game.playerOf, Player.addScore]

def gW3 : Game := (mkGame 3 3 3 9 false).startGame

theorem updateGameStateByLastMove_no_win_spec_witness :
    gW3.checkWinner 0 0 = none ∧ gW3.checkValidMoves = true ∧
    (gW3.updateGameStateByLastMove 0 0).state = GameState.ONGOING :=
  ⟨by decide, by decide,
    ((updateGameStateByLastMove_no_win_spec gW3 0 0 (by decide)).1
      (by decide)).2.1⟩

/-- C8: a move outside ONGOING, or one the board rejects, returns false
and leaves the whole game (board and both histories included) unchanged;
a successful placement returns true, installs the updated board and
appends the move to the current player's history, leaving the other
player untouched. -/
theorem playerMakeMove_spec (g : Game) (x y : Nat) :
    (g.state ≠ GameState.ONGOING → g.playerMakeMove x y = (false, g)) ∧
    (g.board.placeMark x y g.currentRole = none →
      g.playerMakeMove x y = (false, g)) ∧
    (∀ b, g.state = GameState.ONGOING →
      g.board.placeMark x y g.currentRole = some b →
      (g.playerMakeMove x y).1 = true ∧
      (g.playerMakeMove x y).2.board = b ∧
      ((g.playerMakeMove x y).2.playerOf g.currentPlayer).moveHistory
        = (g.playerOf g.currentPlayer).moveHistory ++ [(x, y)] ∧
      (g.playerMakeMove x y).2.playerOf (otherId g.currentPlayer)
        = g.playerOf (otherId g.currentPlayer) ∧
      (g.playerMakeMove x y).2.state = g.state ∧
      (g.playerMakeMove x y).2.totalGamesPlayed = g.totalGamesPlayed) := by
  refine ⟨?_, ?_, ?_⟩
  · intro hs
    unfold Game.playerMakeMove
    rw [if_pos hs]
  · intro hp
    unfold Game.playerMakeMove
    split
    · rfl
    · rw [hp]
  · intro b hs hp
    unfold Game.playerMakeMove
    rw [if_neg (fun hne => hne hs), hp]
    cases hc : g.currentPlayer <;>
      simp [Game.recordCurrentMove, Game.setPlayerOf, Game.playerOf,
        otherId, hc, Player.updatePlayerMove, hs]

def gW8 : Game := (mkGame 3 3 3 9 false).startGame

def bW8 : Board := { sizeX := 3, sizeY := 3, placed := [(0, 0, Role.P1)] }

theorem playerMakeMove_spec_witness :
    (gW8.playerMakeMove 0 0).1 = true ∧
    ((gW8.playerMakeMove 0 0).2.playerOf gW8.currentPlayer).moveHistory
      = (gW8.playerOf gW8.currentPlayer).moveHistory ++ [(0, 0)] := by
  have hs := (playerMakeMove_spec gW8 0 0).2.2 bW8 rfl (by decide)
  exact ⟨hs.1, hs.2.2.1⟩

/-- C9: readyGame clears the board (keeping its dimensions), points
currentPlayer at firstTurnPlayer, resets winner and winCells, clears the
move history of the first-turn player only — the other player, both
scores and totalGamesPlayed are untouched — and leaves state READY. -/
theorem readyGame_spec (g : Game) :
    g.readyGame.board.placed = [] ∧
    g.readyGame.board.sizeX = g.board.sizeX ∧
    g.readyGame.board.sizeY = g.board.sizeY ∧
    g.readyGame.currentPlayer = g.firstTurnPlayer ∧
    g.readyGame.winner = WinnerVal.role Role.NONE ∧
    g.readyGame.winCells = [] ∧
    (g.readyGame.playerOf g.firstTurnPlayer).moveHistory = [] ∧
    (g.readyGame.playerOf g.firstTurnPlayer).score
      = (g.playerOf g.firstTurnPlayer).score ∧
    g.readyGame.playerOf (otherId g.firstTurnPlayer)
      = g.playerOf (otherId g.firstTurnPlayer) ∧
    g.readyGame.totalGamesPlayed = g.totalGamesPlayed ∧
    g.readyGame.state = GameState.READY := by
  cases hf : g.firstTurnPlayer <;>
    simp [Game.readyGame, Game.setPlayerOf, Game.playerOf, otherId,
      Board.resetBoard, Player.resetPlayerMoveHistory, hf]

/-- C10: updateGameStateByLastMove switches currentPlayer only in the
continue branch; in the win branch and in the draw branch currentPlayer
is untouched, and in the win branch the winner field is exactly the
player object currentPlayer still references. -/
theorem updateGameStateByLastMove_currentPlayer_frame (g : Game)
    (x y : Nat) :
    ((g.checkWinner x y).isSome = true →
      (g.updateGameStateByLastMove x y).currentPlayer = g.currentPlayer ∧
      (g.updateGameStateByLastMove x y).winner
        = WinnerVal.playerRef g.currentPlayer) ∧
    (g.checkWinner x y = none → g.checkValidMoves = false →
      (g.updateGameStateByLastMove x y).currentPlayer = g.currentPlayer) ∧
    (g.checkWinner x y = none → g.checkValidMoves = true →
      (g.updateGameStateByLastMove x y).currentPlayer
        = otherId g.currentPlayer) := by
  refine ⟨?_, ?_, ?_⟩
  · intro hw
    cases hcw : g.checkWinner x y with
    | none => rw [hcw] at hw; exact absurd hw (by simp)
    | some cs =>
      unfold Game.updateGameStateByLastMove
      rw [hcw]
      cases hc : g.currentPlayer <;>
        simp [hc, Game.addScoreTo, Game.setPlayerOf, Game.playerOf]
  · intro hcw hv
    unfold Game.updateGameStateByLastMove
    rw [hcw]
    simp [hv, Game.addScoreTo, Game.setPlayerOf, Game.playerOf]
  · intro hcw hv
    unfold Game.updateGameStateByLastMove
    rw [hcw]
    cases hc : g.currentPlayer <;>
      simp [hv, hc, Game.swapTurns, otherId]

def scenarioAStart : Game := (mkGame 3 3 3 9 false).startGame

/-- One orchestrator round: place a mark, then resolve the game state
from that move, as the presentation layer drives the Game. -/
def Game.moveThenUpdate (g : Game) (x y : Nat) : Game :=
  ((g.playerMakeMove x y).2).updateGameStateByLastMove x y

/-- Scenario A of the spec just before resolution: on a 3 by 3 board with
winLength 3, player1 has placed (0,0), (0,1), (0,2) with player2
interleaved at (1,0), (1,1); the last placement (0,2) is made but not yet
resolved. -/
def scenarioAPreFinal : Game :=
  (((((scenarioAStart.moveThenUpdate 0 0).moveThenUpdate 1 0).moveThenUpdate
    0 1).moveThenUpdate 1 1).playerMakeMove 0 2).2

def scenarioAFinal : Game := scenarioAPreFinal.updateGameStateByLastMove 0 2

/-- C2 evaluated at the failing input (scenario A): resolving the last
move finds the line (0,0),(0,1),(0,2), stores it, awards player1 one
point, counts the game and finishes — but the winner field receives the
current Player object (modelled WinnerVal.playerRef), not the Role P1
that the claim, the data model and the JSDoc of getGameWinner state. -/
theorem scenarioA_winner_is_player_object :
    scenarioAFinal.winCells = [(0, 0), (0, 1), (0, 2)] ∧
    scenarioAFinal.player1.score = 1 ∧
    scenarioAFinal.totalGamesPlayed = 1 ∧
    scenarioAFinal.state = GameState.FINISHED ∧
    scenarioAFinal.winner = WinnerVal.playerRef PlayerId.p1 ∧
    scenarioAFinal.winner ≠ WinnerVal.role Role.P1 := by
  refine ⟨by decide, ?_, by decide, by decide, by decide, by decide⟩
  show (0 : Rat) + 1 = 1
  norm_num

theorem updateGameStateByLastMove_currentPlayer_frame_witness :
    (scenarioAPreFinal.checkWinner 0 2).isSome = true ∧
    (scenarioAPreFinal.updateGameStateByLastMove 0 2).currentPlayer
      = scenarioAPreFinal.currentPlayer :=
  ⟨by decide,
    ((updateGameStateByLastMove_currentPlayer_frame scenarioAPreFinal
      0 2).1 (by decide)).1⟩
